import Mathlib

/-
  Verification development for `verify_fix.py`.

  The script is embedded as a trace semantics: each observable action the
  script can take (a call into the browser-automation library, a write to
  standard output, and the actions the script could in principle take but
  does not, such as navigation, assertions, file and environment access)
  is a constructor of `Step`.  The module's top level is embedded as a
  list of `TopLevelItem`s whose execution semantics depends on whether the
  file runs as `__main__`.  The body of the async function `run` is a
  fixed, loop-free sequence of steps, parameterised by the autosave object
  injected into local storage so that dead-data (non-interference) claims
  can be stated.
-/

namespace VerifyFix

/-- Panel layout object from the mock storyboard (verify_fix.py lines 19-20). -/
structure Layout where
  x : Nat
  y : Nat
  width : Nat
  height : Nat
deriving DecidableEq

/-- One panel of the mock storyboard (verify_fix.py lines 19-20). -/
structure Panel where
  id : Nat
  layout : Layout
  status : String
  imageUrl : String
deriving DecidableEq

/-- The mock storyboard object (verify_fix.py lines 16-22). -/
structure Storyboard where
  title : String
  panels : List Panel
deriving DecidableEq

/-- The object stored under the key mangaGen_autosave (verify_fix.py lines 15-23). -/
structure AutosaveState where
  storyboard : Storyboard
deriving DecidableEq

/-- The concrete mock autosave object hard-coded in the init script
(verify_fix.py lines 15-23): two completed placeholder panels. -/
def mockAutosave : AutosaveState :=
  { storyboard :=
    { title := "Test Story"
      panels :=
        [ { id := 1
            layout := { x := 0, y := 0, width := 300, height := 300 }
            status := "completed"
            imageUrl := "https://via.placeholder.com/600x600" },
          { id := 2
            layout := { x := 324, y := 0, width := 300, height := 300 }
            status := "completed"
            imageUrl := "https://via.placeholder.com/600x600" } ] } }

/-- A value written into local storage by the init script: either a raw
string, or the JSON serialisation of an autosave object. -/
inductive StorageValue
  | raw (s : String)
  | jsonAutosave (a : AutosaveState)
deriving DecidableEq

/-- The effect of the injected init script (verify_fix.py lines 13-24):
two localStorage.setItem calls, the second storing the stringified
autosave object `a`. -/
def initScriptFor (a : AutosaveState) : List (String × StorageValue) :=
  [ ("gemini_api_key", StorageValue.raw "test_key"),
    ("mangaGen_autosave", StorageValue.jsonAutosave a) ]

/-- Observable actions of the script.  Constructors cover both the actions
the script performs and the actions it could perform but never does
(navigation, assertions, rendering comparison, file and environment
access), so that absence claims are statable. -/
inductive Step
  | startPlaywright
  | launchChromium (headless : Bool)
  | newPage
  | setViewportSize (width : Nat) (height : Nat)
  | addInitScript (entries : List (String × StorageValue))
  | printStdout (line : String)
  | navigate (url : String)
  | assertExpectation (description : String)
  | compareRendering (description : String)
  | readFile (path : String)
  | writeFile (path : String)
  | readEnvVar (name : String)
  | closePage
  | closeBrowser
  | stopPlaywright
deriving DecidableEq

/-- True for the browser-launch step. -/
def Step.isLaunch : Step → Bool
  | .launchChromium _ => true
  | _ => false

/-- True for the init-script injection step. -/
def Step.isInitScript : Step → Bool
  | .addInitScript _ => true
  | _ => false

/-- True for a page-navigation step. -/
def Step.isNavigate : Step → Bool
  | .navigate _ => true
  | _ => false

/-- True for an assertion step. -/
def Step.isAssertStep : Step → Bool
  | .assertExpectation _ => true
  | _ => false

/-- True for a rendering-comparison step. -/
def Step.isRenderCompare : Step → Bool
  | .compareRendering _ => true
  | _ => false

/-- True for a write to standard output. -/
def Step.isStdout : Step → Bool
  | .printStdout _ => true
  | _ => false

/-- True for a call into the browser-automation library. -/
def Step.isBrowserCall : Step → Bool
  | .startPlaywright => true
  | .launchChromium _ => true
  | .newPage => true
  | .setViewportSize _ _ => true
  | .addInitScript _ => true
  | .navigate _ => true
  | .closePage => true
  | .closeBrowser => true
  | .stopPlaywright => true
  | _ => false

/-- True for a file-system access step. -/
def Step.isFileOp : Step → Bool
  | .readFile _ => true
  | .writeFile _ => true
  | _ => false

/-- True for an environment-variable read. -/
def Step.isEnvRead : Step → Bool
  | .readEnvVar _ => true
  | _ => false

/-- The body of the async function `run` (verify_fix.py lines 4-32),
parameterised by the autosave object injected into local storage.
The `async with async_playwright() as p:` block starts the driver,
launches headless Chromium, opens a page, sets the viewport, injects the
init script, prints one line, and then falls through (`pass`); leaving
the block tears the page, browser and driver down again. -/
def runTraceWith (a : AutosaveState) : List Step :=
  [ Step.startPlaywright,
    Step.launchChromium true,
    Step.newPage,
    Step.setViewportSize 1280 800,
    Step.addInitScript (initScriptFor a),
    Step.printStdout "Navigating to app...",
    Step.closePage,
    Step.closeBrowser,
    Step.stopPlaywright ]

/-- The trace of `run` with the hard-coded mock autosave object. -/
def runTrace : List Step := runTraceWith mockAutosave

/-- The single line printed by the `__main__` guard (verify_fix.py line 39). -/
def skipMessage : String :=
  "Skipping runtime verification due to environment constraints. Proceeding with static verification."

/-- One top-level item of the Python module: an import statement, an
async def (whose body is executed only if the function is later called),
or the `if __name__ == "__main__"` guard with its body. -/
inductive TopLevelItem
  | importModule (name : String)
  | defineAsyncFun (name : String) (body : AutosaveState → List Step)
  | mainGuard (body : List Step)

/-- The top level of verify_fix.py: two imports, the definition of `run`,
and the `__main__` guard whose body is a single print statement
(verify_fix.py lines 34-39). -/
def moduleItems : List TopLevelItem :=
  [ TopLevelItem.importModule "asyncio",
    TopLevelItem.importModule "playwright.async_api",
    TopLevelItem.defineAsyncFun "run" runTraceWith,
    TopLevelItem.mainGuard [Step.printStdout skipMessage] ]

/-- Execution semantics of one top-level item: imports and function
definitions produce no observable step; the guard body runs only when the
module executes as `__main__`. -/
def TopLevelItem.effects (asMain : Bool) : TopLevelItem → List Step
  | .importModule _ => []
  | .defineAsyncFun _ _ => []
  | .mainGuard body => if asMain then body else []

/-- The observable trace of executing the whole module, as `__main__` or
as a mere import. -/
def moduleTrace (asMain : Bool) : List Step :=
  (moduleItems.map (TopLevelItem.effects asMain)).flatten

/-- The trace of running the file as a program (`python verify_fix.py`). -/
def mainTrace : List Step := moduleTrace true

/-- The trace of importing the module without executing it as main. -/
def importedTrace : List Step := moduleTrace false

/-- The lines a trace writes to standard output, in order. -/
def stdoutOf (t : List Step) : List String :=
  t.filterMap fun s =>
    match s with
    | Step.printStdout line => some line
    | _ => none

/-- Resource counters: live playwright drivers, browser processes and
pages held at a point of the trace. -/
structure Resources where
  drivers : Nat
  browsers : Nat
  pages : Nat
deriving DecidableEq

/-- Effect of one step on the held resources. -/
def Resources.apply (r : Resources) : Step → Resources
  | Step.startPlaywright => { r with drivers := r.drivers + 1 }
  | Step.launchChromium _ => { r with browsers := r.browsers + 1 }
  | Step.newPage => { r with pages := r.pages + 1 }
  | Step.closePage => { r with pages := r.pages - 1 }
  | Step.closeBrowser => { r with browsers := r.browsers - 1 }
  | Step.stopPlaywright => { r with drivers := r.drivers - 1 }
  | _ => r

/-- Resources still held after executing a whole trace from nothing. -/
def resourcesAfter (t : List Step) : Resources :=
  t.foldl Resources.apply { drivers := 0, browsers := 0, pages := 0 }

/-- The steps of a trace that come strictly after its init-script
injection step. -/
def stepsAfterInjection (t : List Step) : List Step :=
  (t.dropWhile fun s => !s.isInitScript).drop 1

/-- Claim C1 counterexample: executed as `__main__`, the script never
performs a browser launch or an init-script injection at all — although
the skip message is indeed printed — so the launch and injection cannot
occur before the skip message is printed. -/
theorem c1_main_launch_before_skip_refuted :
    mainTrace.any Step.isLaunch = false ∧
    mainTrace.any Step.isInitScript = false ∧
    stdoutOf mainTrace = [skipMessage] :=
  ⟨rfl, rfl, rfl⟩

/-- Claim C1 (amended): when the script is executed as `__main__`, the
browser launch and init-script injection never occur, because `run` is
never invoked; the execution consists solely of printing the skip
message. -/
theorem c1_main_only_prints_skip :
    mainTrace = [Step.printStdout skipMessage] ∧
    mainTrace.any Step.isLaunch = false ∧
    mainTrace.any Step.isInitScript = false :=
  ⟨rfl, rfl, rfl⟩

/-- Claim C2: executed as `__main__`, the guard performs a single print
and nothing else; no effect of `run` — no browser-automation call, and no
print of the line Navigating to app... — occurs in the main trace. -/
theorem c2_main_never_invokes_run :
    mainTrace = [Step.printStdout skipMessage] ∧
    mainTrace.any Step.isBrowserCall = false ∧
    Step.printStdout "Navigating to app..." ∉ mainTrace := by
  refine ⟨rfl, rfl, ?_⟩
  decide

/-- Claim C3: running the file as a program writes exactly the one fixed
skip line to standard output, and every step of the main trace is a
stdout write, so no other observable output is produced. -/
theorem c3_main_output_is_single_fixed_line :
    stdoutOf mainTrace = [skipMessage] ∧
    mainTrace.all Step.isStdout = true :=
  ⟨rfl, rfl⟩

/-- Claim C4: the injected autosave object is dead data — for any two
contents of the injected object, the steps following the injection and
the entire standard output of `run` are identical, and the main trace
does not depend on it at all. -/
theorem c4_injected_autosave_is_dead_data (a b : AutosaveState) :
    stepsAfterInjection (runTraceWith a) = stepsAfterInjection (runTraceWith b) ∧
    stdoutOf (runTraceWith a) = stdoutOf (runTraceWith b) ∧
    stdoutOf mainTrace = stdoutOf mainTrace :=
  ⟨rfl, rfl, rfl⟩

/-- Claim C5: whenever `run` is invoked, it performs a fixed, bounded,
loop-free sequence of nine steps and terminates; the main trace contains
no browser-automation call, so the program as a whole either never
invokes `run` or completes its trivial step sequence. -/
theorem c5_run_completes_trivially (a : AutosaveState) :
    (runTraceWith a).length = 9 ∧
    runTraceWith a =
      [ Step.startPlaywright,
        Step.launchChromium true,
        Step.newPage,
        Step.setViewportSize 1280 800,
        Step.addInitScript (initScriptFor a),
        Step.printStdout "Navigating to app...",
        Step.closePage,
        Step.closeBrowser,
        Step.stopPlaywright ] ∧
    mainTrace.any Step.isBrowserCall = false :=
  ⟨rfl, rfl, rfl⟩

/-- Claim C6: `run` acquires the driver, a browser process and a page
inside the scoped block (after its first three steps all three are held),
and by the time `run` returns every resource it acquired has been
released again. -/
theorem c6_run_releases_all_resources (a : AutosaveState) :
    resourcesAfter ((runTraceWith a).take 3) =
      { drivers := 1, browsers := 1, pages := 1 } ∧
    resourcesAfter (runTraceWith a) =
      { drivers := 0, browsers := 0, pages := 0 } :=
  ⟨rfl, rfl⟩

/-- Claim C7: in every execution of the script — as `__main__`, as a mere
import, or with `run` invoked on any injected object — the trace contains
no navigation step, no assertion step and no rendering-comparison
step. -/
theorem c7_no_navigation_assertion_or_comparison (a : AutosaveState) :
    (mainTrace ++ importedTrace ++ runTraceWith a).any Step.isNavigate = false ∧
    (mainTrace ++ importedTrace ++ runTraceWith a).any Step.isAssertStep = false ∧
    (mainTrace ++ importedTrace ++ runTraceWith a).any Step.isRenderCompare = false :=
  ⟨rfl, rfl, rfl⟩

/-- Claim C8: in every execution of the script, every observable step is
either a write to standard output or a call into the browser-automation
library; no file access and no environment-variable read ever occurs. -/
theorem c8_only_stdout_and_browser_effects (a : AutosaveState) :
    (mainTrace ++ importedTrace ++ runTraceWith a).all
      (fun s => s.isStdout || s.isBrowserCall) = true ∧
    (mainTrace ++ importedTrace ++ runTraceWith a).any
      (fun s => s.isFileOp || s.isEnvRead) = false :=
  ⟨rfl, rfl⟩

/-- Claim C9: importing the module without executing it as `__main__` has
no observable effect: the top level only binds imports and defines `run`,
so the trace — and in particular the standard output — is empty. -/
theorem c9_importing_has_no_effect :
    importedTrace = [] ∧ stdoutOf importedTrace = [] :=
  ⟨rfl, rfl⟩

/-- Claim C10: if `run` is invoked, its steps occur in a fixed order —
headless Chromium launch, page creation, viewport 1280 by 800, injection
of the init script setting the keys gemini_api_key and mangaGen_autosave,
then the print of Navigating to app... — and that line is its only
output. -/
theorem c10_run_fixed_step_order :
    runTrace =
      [ Step.startPlaywright,
        Step.launchChromium true,
        Step.newPage,
        Step.setViewportSize 1280 800,
        Step.addInitScript
          [ ("gemini_api_key", StorageValue.raw "test_key"),
            ("mangaGen_autosave", StorageValue.jsonAutosave mockAutosave) ],
        Step.printStdout "Navigating to app...",
        Step.closePage,
        Step.closeBrowser,
        Step.stopPlaywright ] ∧
    stdoutOf runTrace = ["Navigating to app..."] :=
  ⟨rfl, rfl⟩

end VerifyFix
